import Mathlib

/-!
Verification of the CineCart order-lifecycle and admin-dashboard logic.

The definitions below are a shallow embedding of the TypeScript source:
`src/src/pages/AdminDashboard.tsx` (admin dashboard: show creation with
seat generation, order status updates, revenue projection) and the
customer my-orders view (`src/unnamed/part_000`): partitioning of orders,
realtime subscriptions, status-style lookup.
-/

namespace CineCart

/-- An order record as fetched by the dashboards: id, owning show,
status string, and total amount (JS numbers embedded as Int). -/
structure Order where
  id : String
  show_id : String
  status : String
  total_amount : Int
  deriving Repr, DecidableEq

/-- A seat row as built by `handleAddShow` before the bulk insert:
show_id, seat_number label, is_booked flag. -/
structure SeatRow where
  show_id : String
  seat_number : String
  is_booked : Bool
  deriving Repr, DecidableEq

/-- The row letters used by seat generation in `handleAddShow`:
`const ROWS = ["A", "B", "C", "D", "E", "F", "G", "H"]`. -/
def ROWS : List String := ["A", "B", "C", "D", "E", "F", "G", "H"]

/-- The column count used by seat generation: `const COLS = 8`. -/
def COLS : Nat := 8

/-- The seat rows generated for a show in `handleAddShow`:
`ROWS.flatMap((row) => Array.from({length: COLS}, (_, i) => ({show_id, seat_number: row+(i+1), is_booked: false})))`. -/
def seatRows (showId : String) : List SeatRow :=
  ROWS.flatMap (fun row =>
    (List.range COLS).map (fun i =>
      { show_id := showId, seat_number := row ++ toString (i + 1), is_booked := false }))

/-- The four known statuses of the pickup workflow. -/
def knownStatuses : List String := ["Confirmed", "Preparing", "Ready", "Collected"]

/-- Position of a known status in the workflow ordering
Confirmed < Preparing < Ready < Collected; none for unknown strings. -/
def statusRank (s : String) : Option Nat :=
  if s = "Confirmed" then some 0
  else if s = "Preparing" then some 1
  else if s = "Ready" then some 2
  else if s = "Collected" then some 3
  else none

/-- Local-state effect of `updateStatus(orderId, status)` in AdminDashboard:
`setOrders(prev => prev.map(o => o.id === orderId ? {...o, status} : o))`.
The DB update mirrors the same assignment; there is no guard or validation. -/
def updateStatus (orders : List Order) (orderId : String) (status : String) : List Order :=
  orders.map (fun o => if o.id = orderId then { o with status := status } else o)

/-- The status-action buttons rendered for one order row of the admin
active-orders table: Preparing and Ready always, Collected only when
`order.status === "Ready"`. Rows appear in the actions view only when the
order is active (status not Collected); a Collected order row offers none. -/
def actionButtons (o : Order) : List String :=
  if o.status = "Collected" then []
  else ["Preparing", "Ready"] ++ (if o.status = "Ready" then ["Collected"] else [])

/-- One admin-interface step: pressing an offered status button for an
order in the fetched list, which calls `updateStatus` with that status. -/
def AdminStep (orders orders2 : List Order) : Prop :=
  ∃ o ∈ orders, ∃ b ∈ actionButtons o, orders2 = updateStatus orders o.id b

/-- The show record returned by the show insert in `handleAddShow`. -/
structure ShowRec where
  id : String
  movie_id : String
  screen : String
  show_time : String
  deriving Repr, DecidableEq

/-- Outcome of `handleAddShow`, distinguishing the toast shown:
validation error, show-insert error, seat-insert error after the show row
exists, or success. -/
inductive AddShowResult where
  | validationError (msg : String)
  | showInsertError (msg : String)
  | seatInsertError (msg : String)
  | success (msg : String)
  deriving Repr, DecidableEq

/-- Control flow of `handleAddShow`: the form must name a movie, screen
and show time; then the show row is inserted; on success the 64 seat rows
are bulk-inserted. A failing seat insert yields the distinct toast
`"Show created but seats failed: " + seatError.message` and the function
returns before the success toast. The two insert calls are passed in as
the remote results they produce. -/
def handleAddShow (movie_id screen show_time : String)
    (insertShow : Except String ShowRec)
    (insertSeats : List SeatRow → Except String Unit) : AddShowResult :=
  if movie_id = "" ∨ screen = "" ∨ show_time = "" then
    .validationError "Movie, screen, and show time are required"
  else
    match insertShow with
    | .error e => .showInsertError e
    | .ok showData =>
      match insertSeats (seatRows showData.id) with
      | .error e => .seatInsertError ("Show created but seats failed: " ++ e)
      | .ok _ => .success "Show scheduled with 64 seats!"

/-- Show filter applied in AdminDashboard:
`filterShow === "all" ? orders : orders.filter(o => o.show_id === filterShow)`. -/
def byShow (orders : List Order) (filterShow : String) : List Order :=
  if filterShow = "all" then orders else orders.filter (fun o => o.show_id = filterShow)

/-- Active orders of the admin dashboard:
`byShow.filter(o => o.status !== "Collected")`. -/
def activeOrders (orders : List Order) (filterShow : String) : List Order :=
  (byShow orders filterShow).filter (fun o => o.status ≠ "Collected")

/-- History orders of the admin dashboard:
`byShow.filter(o => o.status === "Collected")`. -/
def historyOrders (orders : List Order) (filterShow : String) : List Order :=
  (byShow orders filterShow).filter (fun o => o.status = "Collected")

/-- Admin revenue stat, recomputed from the fetched orders on each render:
`activeOrders.reduce((s, o) => s + Number(o.total_amount), 0)`. -/
def totalRevenue (orders : List Order) (filterShow : String) : Int :=
  (activeOrders orders filterShow).foldl (fun s o => s + o.total_amount) 0

/-- Active partition of the customer my-orders view:
`orders.filter(o => o.status !== "Collected")`. -/
def myActive (orders : List Order) : List Order :=
  orders.filter (fun o => o.status ≠ "Collected")

/-- History partition of the customer my-orders view:
`orders.filter(o => o.status === "Collected")`. -/
def myHistory (orders : List Order) : List Order :=
  orders.filter (fun o => o.status = "Collected")

/-- Kind of a postgres change event on the orders table. -/
inductive DbEvent where
  | insert
  | update
  | delete
  deriving Repr, DecidableEq

/-- Event filter of a realtime subscription: a single named event kind, or
the wildcard `"*"`. -/
inductive EventFilter where
  | only (e : DbEvent)
  | wildcard
  deriving Repr, DecidableEq

/-- Whether a subscription with the given filter fires (and so re-fetches
its view) on a mutation of the given kind. -/
def firesOn (f : EventFilter) (e : DbEvent) : Bool :=
  match f with
  | .wildcard => true
  | .only e2 => e = e2

/-- The admin dashboard orders-realtime channel subscribes with
`{event: "*", schema: "public", table: "orders"}`. -/
def adminOrdersSubscription : EventFilter := .wildcard

/-- The customer my-orders-realtime channel subscribes with
`{event: "UPDATE", schema: "public", table: "orders"}`. -/
def myOrdersSubscription : EventFilter := .only .update

/-- A status style of the customer order view: the css class string and
the icon component used. -/
structure StatusStyle where
  cls : String
  icon : String
  deriving Repr, DecidableEq

/-- The `STATUS_STYLES` record of the my-orders view, as an association
list from status string to style. -/
def STATUS_STYLES : List (String × StatusStyle) :=
  [("Confirmed", { cls := "bg-primary/10 text-primary", icon := "CheckCircle" }),
   ("Preparing", { cls := "bg-yellow-500/10 text-yellow-400", icon := "ChefHat" }),
   ("Ready", { cls := "bg-green-500/10 text-green-400", icon := "Star" }),
   ("Collected", { cls := "bg-muted/30 text-muted-foreground", icon := "CheckCircle" })]

/-- A JavaScript value produced by bracket access on the STATUS_STYLES
object literal: an own-property style record, a member inherited from
Object.prototype (a function or object, hence truthy, with no cls or
icon fields), or undefined. -/
inductive JsValue where
  | style (st : StatusStyle)
  | protoMember (name : String)
  | jsUndefined
  deriving Repr, DecidableEq

/-- Property names every plain object literal inherits from
Object.prototype; bracket access with one of these names yields the
inherited member, not undefined. -/
def objectPrototypeProps : List String :=
  ["constructor", "hasOwnProperty", "isPrototypeOf", "propertyIsEnumerable",
   "toLocaleString", "toString", "valueOf",
   "__defineGetter__", "__defineSetter__", "__lookupGetter__", "__lookupSetter__",
   "__proto__"]

/-- Bracket access `STATUS_STYLES[status]` with JS object semantics: an
own property when the key is one of the four entries, otherwise the
inherited Object.prototype member when the key names one, otherwise
undefined. -/
def statusStylesAccess (status : String) : JsValue :=
  match STATUS_STYLES.lookup status with
  | some st => .style st
  | none =>
    if status ∈ objectPrototypeProps then .protoMember status else .jsUndefined

/-- The `??` operator: the left operand unless it is undefined (or null,
which cannot arise here). -/
def nullishCoalesce (a : JsValue) (b : Unit → JsValue) : JsValue :=
  match a with
  | .jsUndefined => b ()
  | v => v

/-- The value destructured per rendered order:
`STATUS_STYLES[order.status] ?? STATUS_STYLES["Confirmed"]`. -/
def styleValue (status : String) : JsValue :=
  nullishCoalesce (statusStylesAccess status) (fun _ => statusStylesAccess "Confirmed")

/-- Whether destructuring cls and icon from the style value and rendering
the icon element succeeds: only a style record carries the two fields; an
inherited prototype member destructures them to undefined and React
throws on the undefined icon element, while undefined already fails at
the destructuring itself. -/
def rendersOk (status : String) : Bool :=
  match styleValue status with
  | .style _ => true
  | _ => false

/-- The seat labels the spec enumerates: A1..A8, B1..B8, ..., H1..H8. -/
def seatLabels : List String :=
  ["A1", "A2", "A3", "A4", "A5", "A6", "A7", "A8",
   "B1", "B2", "B3", "B4", "B5", "B6", "B7", "B8",
   "C1", "C2", "C3", "C4", "C5", "C6", "C7", "C8",
   "D1", "D2", "D3", "D4", "D5", "D6", "D7", "D8",
   "E1", "E2", "E3", "E4", "E5", "E6", "E7", "E8",
   "F1", "F2", "F3", "F4", "F5", "F6", "F7", "F8",
   "G1", "G2", "G3", "G4", "G5", "G6", "G7", "G8",
   "H1", "H2", "H3", "H4", "H5", "H6", "H7", "H8"]

/-- A sample fetched order currently Ready for pickup. -/
def oReady : Order :=
  { id := "order-1", show_id := "show-1", status := "Ready", total_amount := 500 }

/-- The same order after its status is set to Preparing. -/
def oPreparing : Order :=
  { id := "order-1", show_id := "show-1", status := "Preparing", total_amount := 500 }

/-- A sample fetched order in the initial Confirmed status. -/
def oConfirmed : Order :=
  { id := "order-1", show_id := "show-1", status := "Confirmed", total_amount := 500 }

/-- The generated seat list is the label list tagged with the show id and
an unset booked flag; this reduces the flatMap of the source to a map. -/
theorem seatRows_eq_map (showId : String) :
    seatRows showId =
      seatLabels.map (fun n => { show_id := showId, seat_number := n, is_booked := false }) := by
  rfl

/-- C2: seat generation for any show id yields exactly 64 seat records,
whose labels are A1..A8, B1..B8, ..., H1..H8 in order, every one
unbooked and attached to that show. -/
theorem seat_generation_exact (showId : String) :
    (seatRows showId).length = 64 ∧
    (seatRows showId).map (fun s => s.seat_number) = seatLabels ∧
    ∀ s ∈ seatRows showId, s.is_booked = false ∧ s.show_id = showId := by
  refine ⟨rfl, rfl, ?_⟩
  intro s hs
  rw [seatRows_eq_map, List.mem_map] at hs
  obtain ⟨n, _, rfl⟩ := hs
  exact ⟨rfl, rfl⟩

/-- C3: in the admin active-orders table, the Collected action is offered
for an order exactly when its current status is Ready; in particular a
Confirmed or Preparing order cannot be marked Collected in one action. -/
theorem collected_offered_iff_ready (o : Order) :
    "Collected" ∈ actionButtons o ↔ o.status = "Ready" := by
  by_cases hc : o.status = "Collected" <;>
    by_cases hr : o.status = "Ready" <;>
      simp [actionButtons, hc, hr]

/-- C1 counterexample: starting from a Confirmed order, the admin can
press Ready and then Preparing; both are offered buttons, so both are
admin steps, and the second updateStatus call moves the status strictly
backward, from rank 2 (Ready) to rank 1 (Preparing). -/
theorem status_moves_backward_counterexample :
    AdminStep [oConfirmed] [oReady] ∧
    AdminStep [oReady] [oPreparing] ∧
    statusRank oPreparing.status = some 1 ∧
    statusRank oReady.status = some 2 := by
  refine ⟨⟨oConfirmed, ?_, "Ready", ?_, ?_⟩,
    ⟨oReady, ?_, "Preparing", ?_, ?_⟩, ?_, ?_⟩ <;> decide

/-- C1 amended: updateStatus itself enforces no ordering, so backward
moves such as Ready to Preparing are possible; the monotonicity that does
hold is interface-level: a button is offered only on a non-Collected
order, and the Collected button only when the status is Ready, so no step
leaves Collected and no step enters Collected except from Ready. -/
theorem admin_step_partial_monotonicity (o : Order) (b : String)
    (h : b ∈ actionButtons o) :
    o.status ≠ "Collected" ∧ (b = "Collected" → o.status = "Ready") := by
  constructor
  · intro hc
    simp [actionButtons, hc] at h
  · intro hb
    subst hb
    by_cases hc : o.status = "Collected" <;>
      by_cases hr : o.status = "Ready" <;>
        simp [actionButtons, hc, hr] at h ⊢

/-- Witness for the amended C1 theorem at a concrete Ready order and the
Collected button. -/
theorem admin_step_partial_monotonicity_witness :
    oReady.status ≠ "Collected" ∧ ("Collected" = "Collected" → oReady.status = "Ready") :=
  admin_step_partial_monotonicity oReady "Collected" (by decide)

/-- C4 counterexample: the requested status Bogus is not one of the four
known statuses, yet updateStatus neither rejects it nor leaves the order
unchanged: it writes Bogus into the order verbatim. -/
theorem unknown_status_applied_counterexample :
    "Bogus" ∉ knownStatuses ∧
    updateStatus [oConfirmed] "order-1" "Bogus" =
      [{ id := "order-1", show_id := "show-1", status := "Bogus", total_amount := 500 }] ∧
    updateStatus [oConfirmed] "order-1" "Bogus" ≠ [oConfirmed] := by
  decide

/-- C4 amended: updateStatus performs no validation: any requested status
string, known or not, is written verbatim into every order with the given
id; re-applying an order's current status is accepted and leaves the list
unchanged. -/
theorem updateStatus_unvalidated_and_idempotent_accepting
    (orders : List Order) (oid s : String) :
    (∀ o ∈ updateStatus orders oid s, o.id = oid → o.status = s) ∧
    ((∀ o ∈ orders, o.id = oid → o.status = s) → updateStatus orders oid s = orders) := by
  constructor
  · intro o ho hid
    rw [updateStatus, List.mem_map] at ho
    obtain ⟨o0, _, rfl⟩ := ho
    by_cases h0 : o0.id = oid
    · simp [h0]
    · simp [h0] at hid ⊢
  · intro hall
    rw [updateStatus]
    conv_rhs => rw [← List.map_id orders]
    apply List.map_congr_left
    intro o ho
    by_cases h0 : o.id = oid
    · have := hall o ho h0
      cases o
      simp_all
    · simp [h0]

/-- C9: applying the same status update twice in succession yields the
same order list as applying it once; the operation is total, so the
re-application is not an error. -/
theorem updateStatus_idempotent (orders : List Order) (oid s : String) :
    updateStatus (updateStatus orders oid s) oid s = updateStatus orders oid s := by
  simp only [updateStatus, List.map_map]
  apply List.map_congr_left
  intro o _
  by_cases h : o.id = oid <;> simp [Function.comp, h]

/-- C5: when the form is complete, the show insert succeeds, and the bulk
seat insert fails, handleAddShow reports the distinct partial-state
failure message and never the success toast. -/
theorem show_created_seats_failed_reported
    (movie_id screen show_time : String) (showRec : ShowRec) (e : String)
    (insertSeats : List SeatRow → Except String Unit)
    (hm : movie_id ≠ "") (hs : screen ≠ "") (ht : show_time ≠ "")
    (hseat : insertSeats (seatRows showRec.id) = .error e) :
    handleAddShow movie_id screen show_time (.ok showRec) insertSeats =
      .seatInsertError ("Show created but seats failed: " ++ e) ∧
    ∀ m, handleAddShow movie_id screen show_time (.ok showRec) insertSeats ≠
      .success m := by
  rw [handleAddShow]
  simp [hm, hs, ht, hseat]

/-- Witness for C5 at a concrete form, show record, and a seat insert
that fails with message db down. -/
theorem show_created_seats_failed_reported_witness :
    handleAddShow "m1" "Screen 1" "2031-01-01T10:00"
        (.ok { id := "sh1", movie_id := "m1", screen := "Screen 1", show_time := "t" })
        (fun _ => .error "db down") =
      .seatInsertError ("Show created but seats failed: " ++ "db down") ∧
    ∀ m, handleAddShow "m1" "Screen 1" "2031-01-01T10:00"
        (.ok { id := "sh1", movie_id := "m1", screen := "Screen 1", show_time := "t" })
        (fun _ => .error "db down") ≠ .success m :=
  show_created_seats_failed_reported "m1" "Screen 1" "2031-01-01T10:00"
    { id := "sh1", movie_id := "m1", screen := "Screen 1", show_time := "t" }
    "db down" (fun _ => .error "db down") (by decide) (by decide) (by decide) rfl

/-- C8 counterexample: the customer my-orders realtime channel subscribes
only to UPDATE events, so an order insert does not fire it: the event
kinds it subscribes to do not cover order inserts. -/
theorem my_orders_misses_inserts_counterexample :
    firesOn myOrdersSubscription DbEvent.insert = false := by decide

/-- C8 amended: order updates trigger a re-fetch in both subscribed views,
and the admin dashboard wildcard subscription also covers inserts; but the
customer my-orders view subscribes only to update events, so an order
insert does not trigger its re-fetch. -/
theorem subscription_coverage :
    firesOn adminOrdersSubscription DbEvent.insert = true ∧
    firesOn adminOrdersSubscription DbEvent.update = true ∧
    firesOn myOrdersSubscription DbEvent.update = true ∧
    firesOn myOrdersSubscription DbEvent.insert = false := by decide

/-- C7: the customer my-orders view partitions the single fetched list by
one predicate: an order is in the active set exactly when its status is
not Collected and in the history set exactly when it is Collected, the
two sets are disjoint on any order, and together they are a permutation
of the fetched list, so every fetched order lands in exactly one set. -/
theorem my_orders_partition (orders : List Order) :
    (∀ o ∈ orders,
      (o ∈ myActive orders ↔ o.status ≠ "Collected") ∧
      (o ∈ myHistory orders ↔ o.status = "Collected") ∧
      ¬ (o ∈ myActive orders ∧ o ∈ myHistory orders)) ∧
    (myActive orders ++ myHistory orders).Perm orders := by
  constructor
  · intro o ho
    refine ⟨?_, ?_, ?_⟩ <;> simp [myActive, myHistory, List.mem_filter, ho]
  · have h : myHistory orders =
        orders.filter (fun o => !(decide (o.status ≠ "Collected"))) := by
      rw [myHistory]
      apply List.filter_congr
      intro o _
      simp [decide_not]
    rw [myActive, h]
    exact List.filter_append_perm _ orders

/-- Folding addition of total amounts over a list equals the initial
accumulator plus the sum of the mapped amounts. -/
theorem foldl_add_total_amount (l : List Order) (init : Int) :
    l.foldl (fun s o => s + o.total_amount) init =
      init + (l.map (fun o => o.total_amount)).sum := by
  induction l generalizing init with
  | nil => simp
  | cons a t ih => simp [ih]; ring

/-- The active-orders projection of the admin dashboard keeps exactly the
fetched orders that match the show filter and are not Collected. -/
theorem activeOrders_eq_filter (orders : List Order) (f : String) :
    activeOrders orders f =
      orders.filter (fun o =>
        decide ((f = "all" ∨ o.show_id = f) ∧ o.status ≠ "Collected")) := by
  rw [activeOrders, byShow]
  by_cases hf : f = "all"
  · simp only [hf, if_true]
    apply List.filter_congr
    intro o _
    simp
  · simp only [hf, if_false]
    rw [List.filter_filter]
    apply List.filter_congr
    intro o _
    simp [hf, Bool.and_comm]

/-- C6: the admin revenue stat is a pure projection of the fetched orders
and the chosen show filter: it equals the sum of total_amount over exactly
the fetched orders that match the filter and whose status is not
Collected. -/
theorem totalRevenue_sums_uncollected (orders : List Order) (filterShow : String) :
    totalRevenue orders filterShow =
      ((orders.filter (fun o =>
          decide ((filterShow = "all" ∨ o.show_id = filterShow) ∧
            o.status ≠ "Collected"))).map
        (fun o => o.total_amount)).sum := by
  rw [totalRevenue, foldl_add_total_amount, activeOrders_eq_filter, zero_add]

/-- The own-property lookup on STATUS_STYLES misses exactly on the status
strings outside the four known statuses. -/
theorem lookup_none_of_unknown (status : String) (h : status ∉ knownStatuses) :
    STATUS_STYLES.lookup status = none := by
  simp [knownStatuses] at h
  obtain ⟨h1, h2, h3, h4⟩ := h
  have e1 : (status == "Confirmed") = false := by simpa using h1
  have e2 : (status == "Preparing") = false := by simpa using h2
  have e3 : (status == "Ready") = false := by simpa using h3
  have e4 : (status == "Collected") = false := by simpa using h4
  simp [STATUS_STYLES, List.lookup, e1, e2, e3, e4]

/-- C10 counterexample: the status toString is not among the four known
statuses, yet bracket access on the object literal hits the inherited
Object.prototype member, which is truthy, so the fallback to the
Confirmed style does not fire and rendering fails on the undefined icon
element. -/
theorem proto_status_breaks_render_counterexample :
    "toString" ∉ knownStatuses ∧
    statusStylesAccess "toString" = .protoMember "toString" ∧
    styleValue "toString" = .protoMember "toString" ∧
    rendersOk "toString" = false := by decide

/-- C10 amended: for every status string that does not name an inherited
Object.prototype member, the style value is a real style record, and when
the status is also outside the four known statuses it is the Confirmed
style, so rendering is total there; but a status naming an inherited
Object.prototype member bypasses the fallback and rendering fails. -/
theorem status_style_fallback_except_proto (status : String) :
    (status ∉ objectPrototypeProps → ∃ st, styleValue status = JsValue.style st) ∧
    (status ∉ knownStatuses → status ∉ objectPrototypeProps →
      styleValue status =
        JsValue.style { cls := "bg-primary/10 text-primary", icon := "CheckCircle" }) ∧
    (status ∈ objectPrototypeProps → rendersOk status = false) := by
  refine ⟨?_, ?_, ?_⟩
  · intro hp
    cases hlk : STATUS_STYLES.lookup status with
    | some st =>
      exact ⟨st, by simp [styleValue, nullishCoalesce, statusStylesAccess, hlk]⟩
    | none =>
      refine ⟨{ cls := "bg-primary/10 text-primary", icon := "CheckCircle" }, ?_⟩
      simp [styleValue, nullishCoalesce, statusStylesAccess, hlk, hp]
      rfl
  · intro hks hp
    have hnone := lookup_none_of_unknown status hks
    simp [styleValue, nullishCoalesce, statusStylesAccess, hnone, hp]
    rfl
  · intro hp
    simp [objectPrototypeProps] at hp
    rcases hp with rfl | rfl | rfl | rfl | rfl | rfl | rfl | rfl | rfl | rfl | rfl | rfl <;>
      decide

end CineCart
